import Mathlib

/-!
Verification of the recording/transcription orchestration core of
`src/app/page.tsx` (Gravador Inteligente).

The component is a single-page React client.  We shallowly embed its state
machine: the React `useState` cells and `useRef` cells become fields of an
explicit `AppState`, the event handlers (`startRecording`, `stopRecording`,
`processAudio`'s `reader.onloadend` callback, `mediaRecorder.ondataavailable`,
the keyboard handler, the record button and the per-entry copy button) become
pure state-transition functions, and the browser environment's choices
(permission grant, negotiated MIME type, delivered chunks, service outcome,
clipboard outcomes, the clock) become explicit parameters of the events.

Each synchronous handler segment runs to completion as one event-loop step,
and the `await` suspensions the claims can observe are kept explicit:
`startRecording` is split into its synchronous prefix (clear the error, issue
the `getUserMedia` request) and a later permission-resolution event that runs
the continuation after the `await` resolves — during that window the
`isRecording`/`isProcessing` guard state read by the dispatchers is still
false, and the source re-checks nothing after the `await`.
`mediaRecorder.onstop` is delivered by the event loop immediately after
`stop()`, so it is folded into the stop step, while the `FileReader.onloadend`
callback — which performs the remote transcription call — is a separate,
later event, since the controller observably stays in Processing until it
fires.

Binary data (Blob contents) is modelled as `List Nat` (byte sequences); the
`Blob` constructor applied to the chunk array is concatenation (`List.join`).
JS strings are `String` where only whole-string operations occur, and
`List Char` where character-level splitting occurs (`mimeType.split(';')`).
-/

namespace Gravador

/-- The `Transcription` record type of `page.tsx` (`id`, `text`, `timestamp`).
The timestamp `new Date()` is modelled by the millisecond clock value `Nat`
that `Date.now()` returns at creation time. -/
structure Transcription where
  id : String
  text : String
  timestamp : Nat
deriving DecidableEq, Repr

/-- Error message set on microphone-permission failure in `startRecording`. -/
def deviceUnavailableMsg : String :=
  "Não foi possível acessar o microfone. Verifique as permissões do navegador."

/-- Error message set when the service returns no usable text. -/
def emptyTranscriptionMsg : String := "Não foi possível transcrever o áudio."

/-- Error message of the `catch` block in `processAudio`. -/
def serviceFailureMsg : String := "Ocorreu um erro ao processar o áudio com a IA."

/-- The component state: each `useState` cell and each `useRef` cell of the
component, plus observables of the environment that the claims talk about
(acquired capture devices, the tags transmitted to the service, the clipboard
writes attempted, the number of temporarily inserted fallback elements). -/
structure AppState where
  /-- `isRecording` state cell. -/
  isRecording : Bool
  /-- `isProcessing` state cell. -/
  isProcessing : Bool
  /-- `error` state cell (`UIErrorState`). -/
  error : Option String
  /-- `transcriptions` state cell: the history list, newest first. -/
  transcriptions : List Transcription
  /-- `copiedId` state cell (`CopiedMarker`). -/
  copiedId : Option String
  /-- `recordingTime` state cell. -/
  recordingTime : Nat
  /-- `targetLanguage` state cell. -/
  targetLanguage : String
  /-- whether `mediaRecorderRef.current` is non-null. -/
  hasRecorder : Bool
  /-- `audioChunksRef.current`: the accumulated chunks, in push order. -/
  audioChunks : List (List Nat)
  /-- the negotiated `mediaRecorder.mimeType` of the current recorder. -/
  recorderMime : List Char
  /-- whether the `setInterval` ticker started by `startRecording` is live. -/
  tickerActive : Bool
  /-- number of `getUserMedia` calls issued by `startRecording` whose `await`
  has not resolved yet (start requests in flight). -/
  pendingStarts : Nat
  /-- number of capture devices acquired via `getUserMedia` and not yet
  released by `stream.getTracks().forEach(track => track.stop())`. -/
  acquiredDevices : Nat
  /-- whether a `FileReader` read started by `processAudio` is pending
  (its `onloadend` has not fired yet). -/
  readPending : Bool
  /-- the assembled payload handed to `processAudio` (the `Blob` built from
  `audioChunksRef.current` in `onstop`). -/
  pendingPayload : Option (List Nat)
  /-- the `mimeType` argument handed to `processAudio` in `onstop`. -/
  pendingMime : List Char
  /-- content-type tags transmitted to the transcription service, in order. -/
  sentMimeTags : List (List Char)
  /-- texts for which a primary clipboard write was attempted, in order. -/
  clipboardAttempts : List String
  /-- number of extra (fallback textarea) elements currently in the document. -/
  domExtraElements : Nat
deriving DecidableEq, Repr

/-- The initial render state of the component. -/
def initState : AppState :=
  { isRecording := false
  , isProcessing := false
  , error := none
  , transcriptions := []
  , copiedId := none
  , recordingTime := 0
  , targetLanguage := "Português"
  , hasRecorder := false
  , audioChunks := []
  , recorderMime := []
  , tickerActive := false
  , pendingStarts := 0
  , acquiredDevices := 0
  , readPending := false
  , pendingPayload := none
  , pendingMime := []
  , sentMimeTags := []
  , clipboardAttempts := []
  , domExtraElements := 0 }

/-- JavaScript `String.prototype.trim`: strip leading and trailing
whitespace, modelled on the character list.  (Lean's own `String.trim` is the
same operation implemented on byte positions, whose auxiliary functions do
not reduce in the kernel, so we use this directly computable form.) -/
def jsTrim (s : String) : String :=
  ⟨((s.data.dropWhile Char.isWhitespace).reverse.dropWhile
      Char.isWhitespace).reverse⟩

/-- JavaScript `String.prototype.split` with a one-character separator,
on the `List Char` view of strings: `"".split(sep)` is `[""]`, and each
separator occurrence starts a new field. -/
def jsSplit (sep : Char) : List Char → List (List Char)
  | [] => [[]]
  | c :: cs =>
    let rest := jsSplit sep cs
    if c = sep then [] :: rest
    else (c :: rest.headD []) :: rest.tail

/-- `const cleanMimeType = mimeType.split(';')[0] || 'audio/webm';`
(`split` with a non-empty separator always yields at least one field, and the
only falsy string is the empty one). -/
def cleanMimeType (mimeType : List Char) : List Char :=
  let base := (jsSplit ';' mimeType).headD []
  if base = [] then "audio/webm".toList else base

/-- Modelled from the spec's words, for comparison with `cleanMimeType`:
“the base media type with any parameter suffix (everything from the first ';')
stripped; if the resulting base type is empty, the fixed default 'audio/webm'
is substituted.” -/
def specBaseMediaType (mimeType : List Char) : List Char :=
  let base := mimeType.takeWhile (fun c => c ≠ ';')
  if base = [] then "audio/webm".toList else base

/-- The clipboard sequence shared (verbatim, modulo the variable holding the
text) by `processAudio` and the per-entry copy button: attempt
`navigator.clipboard.writeText`; on success set `copiedId`; on failure insert
a textarea, `select()` it, try `document.execCommand('copy')` (setting
`copiedId` on success, only logging on failure), and finally remove the
textarea.  `primaryOk` and `execOk` are the environment's outcomes of the two
copy mechanisms. -/
def clipboardBlock (primaryOk execOk : Bool) (text entryId : String)
    (s : AppState) : AppState :=
  let s1 := { s with clipboardAttempts := s.clipboardAttempts ++ [text] }
  if primaryOk then
    { s1 with copiedId := some entryId }
  else
    -- fallback: document.body.appendChild(textArea)
    let s2 := { s1 with domExtraElements := s1.domExtraElements + 1 }
    let s3 := if execOk then { s2 with copiedId := some entryId } else s2
    -- document.body.removeChild(textArea), after the inner try/catch
    { s3 with domExtraElements := s3.domExtraElements - 1 }

/-- The per-entry copy button's `onClick` handler (history card of entry `t`):
the same clipboard sequence with `t.text` and `t.id`. -/
def copyButtonClick (t : Transcription) (primaryOk execOk : Bool)
    (s : AppState) : AppState :=
  clipboardBlock primaryOk execOk t.text t.id s

/-- `new Transcription` value built in `processAudio`:
`{ id: Date.now().toString(), text: correctedText, timestamp: new Date() }`. -/
def mkTranscription (now : Nat) (text : String) : Transcription :=
  { id := toString now, text := text, timestamp := now }

/-- The `reader.onloadend` async callback of `processAudio`.  `svc` is the
outcome of `ai.models.generateContent`: `Except.error` if the call rejects,
`Except.ok text` if it resolves with optional `response.text`.  The request is
transmitted (with the normalized content-type tag) before either outcome.

If the call rejects, the rejection propagates out of the `onloadend` async
callback: the `try`/`catch` of `processAudio` has already returned when the
callback runs, so nothing handles it — no `setError`, no
`setIsProcessing(false)` — and the state is left as it was. -/
def onloadend (svc : Except Unit (Option String)) (primaryOk execOk : Bool)
    (now : Nat) (s : AppState) : AppState :=
  let s0 := { s with sentMimeTags := s.sentMimeTags ++ [cleanMimeType s.pendingMime] }
  match svc with
  | Except.error _ => s0
  | Except.ok text =>
    -- const correctedText = response.text?.trim() || '';
    let correctedText := (text.map jsTrim).getD ""
    if correctedText ≠ "" then
      let entry := mkTranscription now correctedText
      let s1 := { s0 with transcriptions := entry :: s0.transcriptions }
      let s2 := clipboardBlock primaryOk execOk correctedText entry.id s1
      { s2 with isProcessing := false }
    else
      { s0 with error := some emptyTranscriptionMsg, isProcessing := false }

/-- The synchronous body of `processAudio`: `setIsProcessing(true)`, create a
`FileReader`, start `readAsDataURL(audioBlob)` and register `onloadend`.
The callback itself runs later (the `onloadend` event). -/
def processAudio (payload : List Nat) (mime : List Char) (s : AppState) :
    AppState :=
  { s with isProcessing := true
         , readPending := true
         , pendingPayload := some payload
         , pendingMime := mime }

/-- The synchronous prefix of `startRecording`, up to the `await` of
`navigator.mediaDevices.getUserMedia`: clear the error and issue the device
request.  Everything after the `await` runs later, as
`startRecordingResolve`, without re-checking any guard. -/
def startRecordingRequest (s : AppState) : AppState :=
  { s with error := none, pendingStarts := s.pendingStarts + 1 }

/-- The continuation of `startRecording` after its `await getUserMedia`
resolves, with the environment's permission outcome `granted` and the
recorder's negotiated `mime` type: on success acquire the stream, create the
recorder, reset the chunk buffer, start recording, reset the timer and start
the ticker; on denial (the `catch`) set the device error. -/
def startRecordingResolve (granted : Bool) (mime : List Char)
    (s : AppState) : AppState :=
  if granted then
    { s with hasRecorder := true
           , recorderMime := mime
           , audioChunks := []
           , acquiredDevices := s.acquiredDevices + 1
           , isRecording := true
           , recordingTime := 0
           , tickerActive := true }
  else
    { s with error := some deviceUnavailableMsg }

/-- `stopRecording`, plus the `mediaRecorder.onstop` callback the event loop
delivers right after `stop()`: assemble the `Blob` from the accumulated
chunks, call `processAudio` with it and the recorder's MIME type, then stop
the stream's tracks (releasing the device). -/
def stopRecording (s : AppState) : AppState :=
  if s.hasRecorder && s.isRecording then
    let s1 := { s with isRecording := false, tickerActive := false }
    let payload := s1.audioChunks.flatten
    let s2 := processAudio payload s1.recorderMime s1
    { s2 with acquiredDevices := s2.acquiredDevices - 1 }
  else s

/-- `mediaRecorder.ondataavailable`: push the delivered chunk onto
`audioChunksRef.current` only if its size is positive. -/
def ondataavailable (data : List Nat) (s : AppState) : AppState :=
  if 0 < data.length then { s with audioChunks := s.audioChunks ++ [data] }
  else s

/-- The `handleKeyDown` listener, restricted to a spacebar keydown
(`e.code === 'Space'`; other keys leave the state unchanged): ignored when
focus is in a text input; otherwise start if neither recording nor
processing, stop if recording, and do nothing while processing. -/
def handleKeyDown (inInput : Bool) (s : AppState) : AppState :=
  if inInput then s
  else if !s.isRecording && !s.isProcessing then startRecordingRequest s
  else if s.isRecording then stopRecording s
  else s

/-- The main record button: `onClick` is `stopRecording` while recording and
`startRecording` otherwise, and the button is `disabled` while processing. -/
def recordButtonClick (s : AppState) : AppState :=
  if s.isProcessing then s
  else if s.isRecording then stopRecording s
  else startRecordingRequest s

/-- The language selector buttons: `setTargetLanguage(lang)`, `disabled`
while recording or processing. -/
def langButtonClick (lang : String) (s : AppState) : AppState :=
  if s.isRecording || s.isProcessing then s
  else { s with targetLanguage := lang }

/-- The events the environment can deliver to the component, carrying the
environment's choices. -/
inductive Ev where
  /-- spacebar keydown: focus location. -/
  | space (inInput : Bool)
  /-- record-button click. -/
  | click
  /-- an outstanding `getUserMedia` call resolves: permission outcome and the
  negotiated MIME type of the recorder built from the stream. -/
  | permResolved (granted : Bool) (mime : List Char)
  /-- language-selector click. -/
  | lang (l : String)
  /-- the recorder delivers a data chunk. -/
  | chunk (data : List Nat)
  /-- the one-second ticker fires. -/
  | tick
  /-- the pending `FileReader` read completes: service outcome, clipboard
  outcomes, and the current `Date.now()` value. -/
  | loadend (svc : Except Unit (Option String)) (primaryOk execOk : Bool)
      (now : Nat)
  /-- the copy button of history entry `t` is clicked. -/
  | copyClick (t : Transcription) (primaryOk execOk : Bool)

/-- One event-loop step of the component. -/
def step (e : Ev) (s : AppState) : AppState :=
  match e with
  | Ev.space inInput => handleKeyDown inInput s
  | Ev.click => recordButtonClick s
  | Ev.permResolved granted mime =>
      if 0 < s.pendingStarts then
        startRecordingResolve granted mime
          { s with pendingStarts := s.pendingStarts - 1 }
      else s
  | Ev.lang l => langButtonClick l s
  | Ev.chunk data => if s.hasRecorder then ondataavailable data s else s
  | Ev.tick =>
      if s.tickerActive then { s with recordingTime := s.recordingTime + 1 }
      else s
  | Ev.loadend svc primaryOk execOk now =>
      if s.readPending then
        onloadend svc primaryOk execOk now { s with readPending := false }
      else s
  | Ev.copyClick t primaryOk execOk =>
      if t ∈ s.transcriptions then copyButtonClick t primaryOk execOk s else s

/-- Run a sequence of events from a state. -/
def run (evs : List Ev) (s : AppState) : AppState :=
  evs.foldl (fun acc ev => step ev acc) s

lemma run_nil (s : AppState) : run [] s = s := rfl

lemma run_cons (e : Ev) (evs : List Ev) (s : AppState) :
    run (e :: evs) s = run evs (step e s) := rfl

lemma run_append (l1 l2 : List Ev) (s : AppState) :
    run (l1 ++ l2) s = run l2 (run l1 s) :=
  List.foldl_append ..

/-! ### Claim C1: the double-start race

The dispatchers guard on `!isRecording && !isProcessing`, but `isRecording`
is only set by the continuation of `startRecording`, after its
`await getUserMedia` resolves.  A second start command delivered before the
first request resolves therefore passes the guard again: both `getUserMedia`
calls are issued, and when both grants arrive two capture devices are
acquired (only the second recorder lands in `mediaRecorderRef`; the first
stream's tracks are never stopped). -/

/-- Two start commands in the same tick, before either `getUserMedia` call
resolves, followed by both permission grants. -/
def doubleStartEvs : List Ev :=
  [Ev.space false, Ev.space false,
   Ev.permResolved true ("audio/webm".toList),
   Ev.permResolved true ("audio/webm".toList)]

/-- Claim C1 is contradicted by the code: after two same-tick start commands
both `getUserMedia` requests are in flight (`pendingStarts = 2` — both passed
the stale `!isRecording && !isProcessing` guard), and once both grants
resolve, two capture devices are acquired at once. -/
theorem C1_double_start_acquires_two_devices :
    (run [Ev.space false, Ev.space false] initState).pendingStarts = 2 ∧
    (run doubleStartEvs initState).acquiredDevices = 2 :=
  ⟨rfl, rfl⟩

/-- The conditional half of the start guard, which does hold: while
Recording or Processing, neither start surface issues a `getUserMedia`
request. -/
theorem start_noop_while_busy (s : AppState) (inInput : Bool)
    (h : s.isRecording = true ∨ s.isProcessing = true) :
    (step (Ev.space inInput) s).pendingStarts = s.pendingStarts ∧
    (step Ev.click s).pendingStarts = s.pendingStarts := by
  have hstop : (stopRecording s).pendingStarts = s.pendingStarts := by
    unfold stopRecording
    split
    · simp [processAudio]
    · rfl
  constructor
  · simp only [step, handleKeyDown]
    split
    · rfl
    · split
      · rename_i hc
        simp only [Bool.and_eq_true, Bool.not_eq_true'] at hc
        rcases h with h1 | h1
        · rw [hc.1] at h1; exact absurd h1 (by simp)
        · rw [hc.2] at h1; exact absurd h1 (by simp)
      · split
        · exact hstop
        · rfl
  · simp only [step, recordButtonClick]
    split
    · rfl
    · split
      · exact hstop
      · rename_i hp hr
        simp only [Bool.not_eq_true] at hp hr
        rcases h with h1 | h1
        · rw [hr] at h1; exact absurd h1 (by simp)
        · rw [hp] at h1; exact absurd h1 (by simp)

/-- Witness for the busy-state no-op fact at a concrete Processing state. -/
theorem start_noop_while_busy_witness :
    (step Ev.click { initState with isProcessing := true }).pendingStarts
      = ({ initState with isProcessing := true } : AppState).pendingStarts :=
  (start_noop_while_busy { initState with isProcessing := true } false
    (Or.inr rfl)).2

/-- Claim C4: a start command (spacebar or record-button click) issued from
Idle whose device request is then denied leaves the entire state unchanged
except for setting the `DeviceUnavailable` error message: the controller
stays Idle, `isRecording` is never set, no ticker starts, no recorder or
device resource is created. -/
theorem C4_device_denied (s : AppState) (mime : List Char)
    (h1 : s.isRecording = false) (h2 : s.isProcessing = false) :
    run [Ev.space false, Ev.permResolved false mime] s
        = { s with error := some deviceUnavailableMsg } ∧
    run [Ev.click, Ev.permResolved false mime] s
        = { s with error := some deviceUnavailableMsg } := by
  constructor <;>
    simp [run, step, handleKeyDown, recordButtonClick, startRecordingRequest,
      startRecordingResolve, h1, h2]

/-- Witness for C4 at the initial state. -/
theorem C4_witness :
    run [Ev.space false, Ev.permResolved false []] initState
      = { initState with error := some deviceUnavailableMsg } :=
  (C4_device_denied initState [] rfl rfl).1

/-! ### Chunk accumulation (claims C5 and C10 machinery) -/

lemma flatten_filter_pos (l : List (List Nat)) :
    (l.filter (fun c => 0 < c.length)).flatten = l.flatten := by
  induction l with
  | nil => simp
  | cons c cs ih =>
    by_cases hc : 0 < c.length
    · simp [List.filter_cons, hc, ih]
    · have hnil : c = [] := List.length_eq_zero.mp (by omega)
      simp [List.filter_cons, hc, hnil, ih]

lemma run_chunks (cs : List (List Nat)) (s : AppState)
    (h : s.hasRecorder = true) :
    run (cs.map Ev.chunk) s
      = { s with audioChunks :=
            s.audioChunks ++ cs.filter (fun c => 0 < c.length) } := by
  induction cs generalizing s with
  | nil => simp [run]
  | cons c cs ih =>
    rw [List.map_cons, run_cons]
    by_cases hc : 0 < c.length
    · have hstep : step (Ev.chunk c) s
          = { s with audioChunks := s.audioChunks ++ [c] } := by
        simp [step, ondataavailable, h, hc]
      rw [hstep, ih _ (by simpa using h)]
      simp [List.filter_cons, hc]
    · have hstep : step (Ev.chunk c) s = s := by
        simp [step, ondataavailable, h, hc]
      rw [hstep, ih _ h]
      simp [List.filter_cons, hc]

/-- Claim C5: for every sequence of delivered chunks during a recording
session, the payload assembled at stop equals the concatenation of the
delivered chunks in exactly their delivery order.  (Chunks of size zero are
not pushed, but concatenation is unaffected by dropping empty chunks.) -/
theorem C5_payload_is_delivery_order_concat (chunks : List (List Nat))
    (mime : List Char) :
    (run (Ev.space false :: Ev.permResolved true mime :: (chunks.map Ev.chunk
        ++ [Ev.space false])) initState).pendingPayload
      = some chunks.flatten := by
  rw [run_cons, run_cons, run_append, run_chunks _ _ rfl]
  simp [run, step, handleKeyDown, startRecordingRequest, startRecordingResolve,
    stopRecording, processAudio, initState, flatten_filter_pos]

/-- Claim C10: a delivered chunk of size zero is never accumulated — the
chunk buffer holds exactly the non-empty delivered chunks in delivery order,
and the assembled payload is their concatenation. -/
theorem C10_empty_chunks_dropped (chunks : List (List Nat))
    (mime : List Char) :
    (run (Ev.space false :: Ev.permResolved true mime :: chunks.map Ev.chunk)
        initState).audioChunks
      = chunks.filter (fun c => 0 < c.length) ∧
    (run (Ev.space false :: Ev.permResolved true mime :: (chunks.map Ev.chunk
        ++ [Ev.space false])) initState).pendingPayload
      = some (chunks.filter (fun c => 0 < c.length)).flatten := by
  constructor
  · rw [run_cons, run_cons, run_chunks _ _ rfl]
    simp [step, handleKeyDown, startRecordingRequest, startRecordingResolve,
      initState]
  · rw [run_cons, run_cons, run_append, run_chunks _ _ rfl]
    simp [run, step, handleKeyDown, startRecordingRequest,
      startRecordingResolve, stopRecording, processAudio, initState]

/-! ### Clipboard-block field preservation (shared helpers) -/

lemma clipboardBlock_transcriptions (p e : Bool) (t i : String)
    (s : AppState) :
    (clipboardBlock p e t i s).transcriptions = s.transcriptions := by
  cases p <;> cases e <;> simp [clipboardBlock]

lemma clipboardBlock_clipboardAttempts (p e : Bool) (t i : String)
    (s : AppState) :
    (clipboardBlock p e t i s).clipboardAttempts
      = s.clipboardAttempts ++ [t] := by
  cases p <;> cases e <;> simp [clipboardBlock]

lemma clipboardBlock_error (p e : Bool) (t i : String) (s : AppState) :
    (clipboardBlock p e t i s).error = s.error := by
  cases p <;> cases e <;> simp [clipboardBlock]

lemma clipboardBlock_sentMimeTags (p e : Bool) (t i : String) (s : AppState) :
    (clipboardBlock p e t i s).sentMimeTags = s.sentMimeTags := by
  cases p <;> cases e <;> simp [clipboardBlock]

/-! ### Claim C2: failure paths of `processAudio`

The `EmptyTranscription` branch behaves as specified, but on a rejection of
the transcription call the `catch` of `processAudio` never runs: the rejection
happens inside the `reader.onloadend` async callback, after `processAudio`'s
own `try` block has already returned.  Nothing sets the error and nothing
resets `isProcessing`, so the controller stays in Processing forever. -/

/-- A complete session whose transcription call rejects: start (permission
granted), stop (assembling the payload and starting the read), then the read
completes and `generateContent` rejects. -/
def serviceFailEvs : List Ev :=
  [Ev.space false, Ev.permResolved true ("audio/webm".toList),
   Ev.space false, Ev.loadend (Except.error ()) true true 0]

/-- Claim C2 is contradicted by the code on the `ServiceFailure` branch:
after a session whose transcription call rejects, `isProcessing` is still
`true` (the controller does not return to Idle) and the error surface is
still `none` — only the history-unchanged part holds.  The claim (and the
`catch` block present in `processAudio` itself, with its dedicated message)
describe the evident intent; the code's `try`/`catch` cannot catch a
rejection raised inside the `onloadend` async callback. -/
theorem C2_service_failure_stays_processing :
    (run serviceFailEvs initState).isProcessing = true ∧
    (run serviceFailEvs initState).error = none ∧
    (run serviceFailEvs initState).transcriptions = [] :=
  ⟨rfl, rfl, rfl⟩

/-- The `EmptyTranscription` half of claim C2, which the code does satisfy:
when the service resolves but yields no usable text, the controller returns
to Idle, the error becomes non-null, and the history is unchanged. -/
theorem C2_empty_transcription_behaves (s : AppState)
    (tex : Option String) (primaryOk execOk : Bool) (now : Nat)
    (hread : s.readPending = true)
    (ht : (tex.map jsTrim).getD "" = "") :
    (step (Ev.loadend (Except.ok tex) primaryOk execOk now) s).isProcessing
        = false ∧
    (step (Ev.loadend (Except.ok tex) primaryOk execOk now) s).error
        = some emptyTranscriptionMsg ∧
    (step (Ev.loadend (Except.ok tex) primaryOk execOk now) s).transcriptions
        = s.transcriptions := by
  have hstep : step (Ev.loadend (Except.ok tex) primaryOk execOk now) s
      = onloadend (Except.ok tex) primaryOk execOk now
          { s with readPending := false } := by
    simp [step, hread]
  rw [hstep]
  simp [onloadend, ht]

/-- Witness for the `EmptyTranscription` theorem at concrete inputs. -/
theorem C2_empty_transcription_witness :
    (step (Ev.loadend (Except.ok (some "  ")) true true 4)
        { initState with readPending := true, isProcessing := true
        }).isProcessing = false ∧
    (step (Ev.loadend (Except.ok (some "  ")) true true 4)
        { initState with readPending := true, isProcessing := true }).error
      = some emptyTranscriptionMsg ∧
    (step (Ev.loadend (Except.ok (some "  ")) true true 4)
        { initState with readPending := true, isProcessing := true
        }).transcriptions
      = ({ initState with readPending := true, isProcessing := true
          } : AppState).transcriptions :=
  C2_empty_transcription_behaves
    { initState with readPending := true, isProcessing := true }
    (some "  ") true true 4 rfl (by decide)

/-- Claim C3: when the pending read completes and the service resolves with
text whose trim is non-empty, exactly one new entry with the trimmed text is
prepended to the history, and a clipboard write with that text is attempted. -/
theorem C3_success_prepends_trimmed_entry (s : AppState) (t : String)
    (primaryOk execOk : Bool) (now : Nat)
    (hread : s.readPending = true) (ht : jsTrim t ≠ "") :
    ((step (Ev.loadend (Except.ok (some t)) primaryOk execOk now)
        s).transcriptions
      = mkTranscription now (jsTrim t) :: s.transcriptions) ∧
    ((step (Ev.loadend (Except.ok (some t)) primaryOk execOk now)
        s).clipboardAttempts
      = s.clipboardAttempts ++ [jsTrim t]) := by
  have hstep : step (Ev.loadend (Except.ok (some t)) primaryOk execOk now) s
      = onloadend (Except.ok (some t)) primaryOk execOk now
          { s with readPending := false } := by
    simp [step, hread]
  rw [hstep]
  simp [onloadend, ht, clipboardBlock_transcriptions,
    clipboardBlock_clipboardAttempts]

/-- Witness for C3 at concrete inputs (text with surrounding whitespace). -/
theorem C3_witness :
    ((step (Ev.loadend (Except.ok (some " Olá mundo ")) true true 7)
        { initState with readPending := true, isProcessing := true
        }).transcriptions
      = [mkTranscription 7 (jsTrim " Olá mundo ")]) ∧
    ((step (Ev.loadend (Except.ok (some " Olá mundo ")) true true 7)
        { initState with readPending := true, isProcessing := true
        }).clipboardAttempts
      = [jsTrim " Olá mundo "]) :=
  C3_success_prepends_trimmed_entry
    { initState with readPending := true, isProcessing := true }
    " Olá mundo " true true 7 rfl (by decide)

/-! ### Claim C7: MIME-tag normalization -/

lemma jsSplit_headD (s : List Char) :
    (jsSplit ';' s).headD [] = s.takeWhile (fun c => c ≠ ';') := by
  induction s with
  | nil => simp [jsSplit]
  | cons c cs ih =>
    by_cases hc : c = ';'
    · simp [jsSplit, hc]
    · simpa [jsSplit, hc] using ih

/-- Claim C7: the normalized tag computed by the code equals the spec's
description — the base media type (everything before the first ';'), with
`'audio/webm'` substituted when that base is empty — and this is exactly the
tag transmitted to the service when the pending read completes. -/
theorem C7_mime_tag_normalized :
    (∀ mt : List Char, cleanMimeType mt = specBaseMediaType mt) ∧
    (∀ (s : AppState) (svc : Except Unit (Option String))
        (primaryOk execOk : Bool) (now : Nat),
      s.readPending = true →
      (step (Ev.loadend svc primaryOk execOk now) s).sentMimeTags
        = s.sentMimeTags ++ [specBaseMediaType s.pendingMime]) := by
  have hmain : ∀ mt : List Char, cleanMimeType mt = specBaseMediaType mt := by
    intro mt
    unfold cleanMimeType specBaseMediaType
    rw [jsSplit_headD]
  refine ⟨hmain, ?_⟩
  intro s svc primaryOk execOk now hread
  have hstep : step (Ev.loadend svc primaryOk execOk now) s
      = onloadend svc primaryOk execOk now
          { s with readPending := false } := by
    simp [step, hread]
  rw [hstep]
  cases svc with
  | error u => simp [onloadend, hmain]
  | ok text =>
    simp only [onloadend]
    split
    · simp [clipboardBlock_sentMimeTags, hmain]
    · simp [hmain]

/-- Witness for C7 at concrete inputs. -/
theorem C7_witness :
    (step (Ev.loadend (Except.ok (some "x")) true true 2)
        { initState with
            readPending := true
            pendingMime := "audio/webm;codecs=opus".toList }).sentMimeTags
      = ({ initState with
            readPending := true
            pendingMime := "audio/webm;codecs=opus".toList
          } : AppState).sentMimeTags
        ++ [specBaseMediaType "audio/webm;codecs=opus".toList] :=
  C7_mime_tag_normalized.2
    { initState with
        readPending := true
        pendingMime := "audio/webm;codecs=opus".toList }
    (Except.ok (some "x")) true true 2 rfl

/-- Claim C8: when both the primary clipboard write and the legacy fallback
fail, the error surface is unchanged — for the shared clipboard sequence, for
the per-entry copy button, and for the post-transcription copy inside the
`onloadend` success path. -/
theorem C8_clipboard_failure_never_sets_error :
    (∀ (s : AppState) (text entryId : String),
      (clipboardBlock false false text entryId s).error = s.error) ∧
    (∀ (s : AppState) (t : Transcription),
      (copyButtonClick t false false s).error = s.error) ∧
    (∀ (s : AppState) (t : String) (now : Nat), jsTrim t ≠ "" →
      (onloadend (Except.ok (some t)) false false now s).error = s.error) := by
  refine ⟨fun s text entryId => clipboardBlock_error ..,
          fun s t => clipboardBlock_error .., ?_⟩
  intro s t now ht
  simp [onloadend, ht, clipboardBlock_error]

/-- Witness for C8 at concrete inputs. -/
theorem C8_witness :
    (onloadend (Except.ok (some "abc")) false false 3 initState).error
      = initState.error :=
  C8_clipboard_failure_never_sets_error.2.2 initState "abc" 3 (by decide)

/-- Claim C9: whenever the clipboard fallback path runs (the primary write
failed), the temporarily inserted element is removed again whether or not the
legacy copy command succeeds: the number of extra elements is unchanged. -/
theorem C9_fallback_element_always_removed :
    ∀ (s : AppState) (text entryId : String) (execOk : Bool),
      (clipboardBlock false execOk text entryId s).domExtraElements
        = s.domExtraElements ∧
      ∀ t : Transcription,
        (copyButtonClick t false execOk s).domExtraElements
          = s.domExtraElements := by
  intro s text entryId execOk
  constructor
  · cases execOk <;> simp [clipboardBlock]
  · intro t
    cases execOk <;> simp [copyButtonClick, clipboardBlock]

/-! ### Claim C6: entry ids

The entry id is `Date.now().toString()`.  Two entries created in the same
clock millisecond therefore share an id, refuting the claim as stated; ids
are distinct exactly when the creation timestamps are, because the decimal
representation of a natural number (`Nat.repr`) is injective — proved below
via a digit-valuation left inverse. -/

/-- Numeric value of a decimal digit character. -/
def digitVal (c : Char) : Nat := c.toNat - 48

/-- Value of a most-significant-first decimal digit string. -/
def digitsVal (l : List Char) : Nat :=
  l.foldl (fun a c => a * 10 + digitVal c) 0

lemma digitsVal_append_singleton (l : List Char) (c : Char) :
    digitsVal (l ++ [c]) = digitsVal l * 10 + digitVal c := by
  simp [digitsVal, List.foldl_append]

lemma digitVal_digitChar (d : Nat) (h : d < 10) :
    digitVal (Nat.digitChar d) = d := by
  interval_cases d <;> decide

lemma toDigitsCore_acc :
    ∀ (fuel n : Nat) (l : List Char),
      Nat.toDigitsCore 10 fuel n l = Nat.toDigitsCore 10 fuel n [] ++ l := by
  intro fuel
  induction fuel with
  | zero => intro n l; simp [Nat.toDigitsCore]
  | succ fuel ih =>
    intro n l
    simp only [Nat.toDigitsCore]
    split
    · simp
    · rw [ih (n / 10) (Nat.digitChar (n % 10) :: l),
        ih (n / 10) [Nat.digitChar (n % 10)], List.append_assoc,
        List.singleton_append]

lemma digitsVal_toDigitsCore :
    ∀ (fuel n : Nat), n < fuel →
      digitsVal (Nat.toDigitsCore 10 fuel n []) = n := by
  intro fuel
  induction fuel with
  | zero => intro n h; exact absurd h (Nat.not_lt_zero n)
  | succ fuel ih =>
    intro n h
    simp only [Nat.toDigitsCore]
    split
    · rename_i h0
      have hm : n % 10 = n := by omega
      rw [hm]
      simp [digitsVal, digitVal_digitChar n (by omega)]
    · rename_i h0
      rw [toDigitsCore_acc fuel (n / 10) [Nat.digitChar (n % 10)],
        digitsVal_append_singleton, ih (n / 10) (by omega),
        digitVal_digitChar (n % 10) (by omega)]
      omega

lemma natRepr_injective {m n : Nat} (h : Nat.repr m = Nat.repr n) : m = n := by
  have hd : Nat.toDigitsCore 10 (m + 1) m [] =
      Nat.toDigitsCore 10 (n + 1) n [] := by
    have hdata := congrArg String.data h
    simpa [Nat.repr, Nat.toDigits, List.asString] using hdata
  have h1 := digitsVal_toDigitsCore (m + 1) m (Nat.lt_succ_self m)
  have h2 := digitsVal_toDigitsCore (n + 1) n (Nat.lt_succ_self n)
  rw [← h1, ← h2, hd]

/-- Two successful sessions completing at the same `Date.now()` millisecond
(value 5), with different transcribed texts. -/
def sameMillisEvs : List Ev :=
  [Ev.space false, Ev.permResolved true [], Ev.space false,
   Ev.loadend (Except.ok (some "a")) true true 5,
   Ev.space false, Ev.permResolved true [], Ev.space false,
   Ev.loadend (Except.ok (some "b")) true true 5]

/-- Counterexample to claim C6 as stated: a reachable history holding two
distinct entries with equal ids — both sessions complete at the same clock
millisecond, and `Date.now().toString()` is the sole id source. -/
theorem C6_counterexample :
    (run sameMillisEvs initState).transcriptions
      = [mkTranscription 5 "b", mkTranscription 5 "a"] ∧
    mkTranscription 5 "b" ≠ mkTranscription 5 "a" ∧
    (mkTranscription 5 "b").id = (mkTranscription 5 "a").id := by
  refine ⟨by decide, by decide, rfl⟩

/-- Claim C6 amended: any two history entries created at distinct clock
milliseconds have distinct ids (the id is the decimal representation of the
creation timestamp, and decimal representation is injective). -/
theorem C6_distinct_timestamps_give_distinct_ids (n1 n2 : Nat)
    (t1 t2 : String) (h : n1 ≠ n2) :
    (mkTranscription n1 t1).id ≠ (mkTranscription n2 t2).id := by
  intro hid
  exact h (natRepr_injective hid)

/-- Witness for the amended C6 at concrete inputs. -/
theorem C6_amended_witness :
    (mkTranscription 5 "a").id ≠ (mkTranscription 6 "b").id :=
  C6_distinct_timestamps_give_distinct_ids 5 6 "a" "b" (by decide)

end Gravador
